import Mathlib

/-!
Shallow embedding of `helpers/disk.py`: block-device model, partition model,
LUKS2 wrapper and the GPT partition-table session.  External interactions
(the command executor, `os.path.islink`, `os.path.abspath`, the parsed
loop-device table, the libc mount primitive) are supplied by an
environment `Env`; every operation additionally returns the list of
side effects it issues, in order, as an `Effect` trace.
-/

/-- Python exceptions raised by this module: `DiskError` and `OSError`. -/
inductive PyError where
  | diskError (msg : String)
  | osError (errno : Int) (msg : String)
deriving DecidableEq, Repr

/-- One observable side effect: an external command invocation
(`sys_command`) or a direct libc mount call. -/
inductive Effect where
  | cmd (s : String)
  | kmount (source target fstype options : String)
deriving DecidableEq, Repr

/-- One row of the parsed `losetup --json` table. -/
structure LoopDev where
  name : String
  backFile : String
deriving DecidableEq, Repr

/-- The external world consumed by the module: command outputs and exit
codes keyed by command string, the loop-device table, link existence,
path absolutization, and the libc mount primitive with its errno. -/
structure Env where
  cmdOutput : String → String
  exitCode : String → Int
  loopdevices : List LoopDev
  islink : String → Bool
  abspath : String → String
  mountRet : String → String → String → String → Int
  errno : Int
  strerror : Int → String

/-- Python truthiness of an optional string: `None` and `""` are falsy. -/
def strFalsy : Option String → Bool
  | none => true
  | some s => s.isEmpty

/-- Python truthiness of an optional bool (`None` is falsy). -/
def pyTruthy : Option Bool → Bool
  | none => false
  | some b => b

/-- Python f-string rendering of an optional string (`None` prints as
the text `None`). -/
def pyStrOpt : Option String → String
  | none => "None"
  | some s => s

/-- `os.path.basename`: the final path component. -/
def basename (p : String) : String :=
  (p.splitOn "/").getLastD ""

/-- Python `in` on strings: substring containment (computed on the
underlying character lists). -/
def containsSub (s pat : String) : Bool :=
  (List.range (s.data.length + 1)).any fun i => pat.data.isPrefixOf (s.data.drop i)

/-- Dict lookup on the `info` mapping (association list). -/
def infoGet (info : List (String × String)) (key : String) : Option String :=
  (info.find? (fun kv => kv.fst == key)).map (fun kv => kv.snd)

/-- `BlockDevice(path, info)`. -/
structure BlockDevice where
  path : String
  info : List (String × String)
deriving DecidableEq, Repr

/-- The `BlockDevice.device` property.  Raises `DiskError` when `info`
has no `type` key; for `loop` it queries the live loop table and returns
the back-file of the first row whose name equals `path` (falling through
to Python `None` when no row matches); for `disk` it returns `path`; for
`crypt` it returns `/dev/<pkname>` or raises `DiskError` when `pkname`
is missing; any other type falls off the end of the method (`None`). -/
def BlockDevice.device (env : Env) (bd : BlockDevice) :
    Except PyError (Option String) × List Effect :=
  match infoGet bd.info "type" with
  | none =>
      (.error (.diskError ("Could not locate backplane info for \"" ++ bd.path ++ "\"")), [])
  | some t =>
      if t = "loop" then
        (.ok ((env.loopdevices.find? (fun drive => drive.name == bd.path)).map
            (fun drive => drive.backFile)),
         [.cmd "losetup --json"])
      else if t = "disk" then
        (.ok (some bd.path), [])
      else if t = "crypt" then
        match infoGet bd.info "pkname" with
        | none =>
            (.error (.diskError ("A crypt device (" ++ bd.path ++
              ") without a parent kernel device name.")), [])
        | some pk => (.ok (some ("/dev/" ++ pk)), [])
      else
        (.ok none, [])

/-- `Partition` state: path, id, mountpoint, filesystem, size. -/
structure Partition where
  path : String
  part_id : String
  mountpoint : Option String
  filesystem : Option String
  size : Int
deriving DecidableEq, Repr

/-- `Partition.__init__(path, part_id=None, size=-1)`: a falsy `part_id`
is replaced by the basename of `path`; `mountpoint` and `filesystem`
start out as `None`. -/
def Partition.init (path : String) (part_id : Option String) (size : Int) : Partition :=
  { path := path
    part_id := if strFalsy part_id then basename path else part_id.getD ""
    mountpoint := none
    filesystem := none
    size := size }

/-- The mkfs command line for the copy-on-write branch of `format`. -/
def btrfsCmd (p : Partition) : String :=
  "/usr/bin/mkfs.btrfs -f " ++ p.path

/-- The mkfs command line for the FAT32 branch of `format`. -/
def fat32Cmd (p : Partition) : String :=
  "/usr/bin/mkfs.vfat -F32 " ++ p.path

/-- `Partition.format(filesystem)`.  Result is the Python return value
(`None`/`False`/`True` as `Option Bool`) or a raised error, together
with the partition post-state and the issued commands. -/
def Partition.format (env : Env) (p : Partition) (filesystem : String) :
    Except PyError (Option Bool) × Partition × List Effect :=
  if filesystem = "btrfs" then
    let o := env.cmdOutput (btrfsCmd p)
    if !containsSub o "UUID" then
      (.ok (some false), p, [.cmd (btrfsCmd p)])
    else
      (.ok (some true), { p with filesystem := some "btrfs" }, [.cmd (btrfsCmd p)])
  else if filesystem = "fat32" then
    let o := env.cmdOutput (fat32Cmd p)
    if (!containsSub o "mkfs.fat" && !containsSub o "mkfs.vfat") ||
        containsSub o "command not found" then
      (.ok none, p, [.cmd (fat32Cmd p)])
    else
      (.ok (some true), p, [.cmd (fat32Cmd p)])
  else
    (.error (.diskError ("Fileformat " ++ filesystem ++ " is not yet implemented.")), p, [])

/-- `Partition.mount(target, fs=None, options='')`.  A falsy `fs`
falls back on `self.filesystem`, raising `DiskError` when that too is
unset, before the libc mount call; a negative mount return raises
`OSError` (errno and message); success records the mountpoint. -/
def Partition.mount (env : Env) (p : Partition) (target : String)
    (fs : Option String) (options : String) :
    Except PyError Unit × Partition × List Effect :=
  match (if strFalsy fs then
           (if strFalsy p.filesystem then none else some (p.filesystem.getD ""))
         else some (fs.getD "")) with
  | none =>
      (.error (.diskError "Need to format (or define) the filesystem before mounting."), p, [])
  | some f =>
      let ret := env.mountRet p.path target f options
      if ret < 0 then
        (.error (.osError env.errno ("Error mounting " ++ p.path ++ " (" ++ f ++
            ") on " ++ target ++ " with options " ++ options ++ ": " ++
            env.strerror env.errno)), p, [.kmount p.path target f options])
      else
        (.ok (), { p with mountpoint := some target }, [.kmount p.path target f options])

/-- `luks2.unlock(partition, mountpoint, key_file)`.  The source line
`if '/' in mountpoint: os.path.basename(mountpoint)` computes a basename
whose value is discarded (a pure no-op), so the command below always
receives the caller's `mountpoint` verbatim.  After the cryptsetup-open
command, a new Partition on `/dev/mapper/<mountpoint>` is returned iff
that link exists; otherwise the method falls through (Python `None`). -/
def luks2.unlock (env : Env) (partition : Partition) (mountpoint key_file : String) :
    Option Partition × List Effect :=
  let c := "/usr/bin/cryptsetup open " ++ partition.path ++ " " ++ mountpoint ++
      " --key-file " ++ env.abspath key_file ++ " --type luks2"
  if env.islink ("/dev/mapper/" ++ mountpoint) then
    (some (Partition.init ("/dev/mapper/" ++ mountpoint) none (-1)), [.cmd c])
  else
    (none, [.cmd c])

/-- `luks2.close(mountpoint)`: runs the teardown command, then returns
`os.path.islink('/dev/mapper/<mountpoint>') is False`. -/
def luks2.close (env : Env) (mountpoint : String) : Bool × List Effect :=
  ((env.islink ("/dev/mapper/" ++ mountpoint)) == false,
   [.cmd ("cryptsetup close /dev/mapper/" ++ mountpoint)])

/-- The GPT mode constant (`0b00000001`). -/
def GPT : Nat := 1

/-- `Filesystem(blockdevice, mode=GPT)`: the partition-table session. -/
structure Filesystem where
  blockdevice : BlockDevice
  mode : Nat
deriving DecidableEq, Repr

/-- `Filesystem.__enter__`: in GPT mode writes the label and returns the
session when the command exits 0, otherwise raises `DiskError`; any
other mode raises `DiskError`. -/
def Filesystem.enter (env : Env) (fsx : Filesystem) :
    Except PyError Filesystem × List Effect :=
  if fsx.mode = GPT then
    match BlockDevice.device env fsx.blockdevice with
    | (.error e, t) => (.error e, t)
    | (.ok dev, t) =>
        let c := "/usr/bin/parted -s " ++ pyStrOpt dev ++ " mklabel gpt"
        if env.exitCode c == 0 then
          (.ok fsx, t ++ [.cmd c])
        else
          (.error (.diskError "Problem setting the partition format to GPT:"), t ++ [.cmd c])
  else
    (.error (.diskError ("Unknown mode selected to format in: " ++ toString fsx.mode)), [])

/-- `Filesystem.__exit__(*args)`: joins the output of a `sync` command
and implicitly returns Python `None` (falsy), irrespective of any
pending exception. -/
def Filesystem.exitStep (fsx : Filesystem) (excVal : Option PyError) :
    Option Bool × List Effect :=
  (none, [Effect.cmd "sync"])

/-- Python `with`-statement semantics for `__exit__`'s return value: a
truthy result suppresses the pending exception, a falsy one lets it
propagate unchanged. -/
def propagatesExc (exitResult : Option Bool) (exc : PyError) : Option PyError :=
  if pyTruthy exitResult then none else some exc

/-- Sequencing of effectful steps: on error, effects so far are kept
and the rest is not run (Python exception propagation). -/
def seqEff {α β : Type} (a : Except PyError α × List Effect)
    (k : α → Except PyError β × List Effect) : Except PyError β × List Effect :=
  match a with
  | (.error e, t) => (.error e, t)
  | (.ok x, t) => let r := k x; (r.1, t ++ r.2)

/-- `Filesystem.raw_parted(string)` / `Filesystem.parted(string)`:
issue `/usr/bin/parted -s <string>` and expose its exit code. -/
def Filesystem.parted (env : Env) (fsx : Filesystem) (string : String) :
    Int × List Effect :=
  ("/usr/bin/parted -s " ++ string |> fun c => (env.exitCode c, [Effect.cmd c]))

/-- `Filesystem.add_partition(type, start, end, format=None)`: builds a
`mkpart` command against `self.blockdevice.device` (a truthy `format`
is spliced between type and bounds) and returns whether the parted
exit code is zero. -/
def Filesystem.add_partition (env : Env) (fsx : Filesystem)
    (type start stop : String) (format : Option String) :
    Except PyError Bool × List Effect :=
  match BlockDevice.device env fsx.blockdevice with
  | (.error e, t) => (.error e, t)
  | (.ok dev, t) =>
      let line :=
        if !strFalsy format then
          pyStrOpt dev ++ " mkpart " ++ type ++ " " ++ format.getD "" ++ " " ++
            start ++ " " ++ stop
        else
          pyStrOpt dev ++ " mkpart " ++ type ++ " " ++ start ++ " " ++ stop
      let r := fsx.parted env line
      (.ok (r.1 == 0), t ++ r.2)

/-- `Filesystem.set_name(partition, name)`: 1-based index adjustment,
name quoted in the command. -/
def Filesystem.set_name (env : Env) (fsx : Filesystem)
    (partition : Nat) (name : String) : Except PyError Bool × List Effect :=
  match BlockDevice.device env fsx.blockdevice with
  | (.error e, t) => (.error e, t)
  | (.ok dev, t) =>
      let r := fsx.parted env (pyStrOpt dev ++ " name " ++ toString (partition + 1) ++
        " \"" ++ name ++ "\"")
      (.ok (r.1 == 0), t ++ r.2)

/-- `Filesystem.set(partition, string)`: flag command, 1-based index. -/
def Filesystem.set (env : Env) (fsx : Filesystem)
    (partition : Nat) (string : String) : Except PyError Bool × List Effect :=
  match BlockDevice.device env fsx.blockdevice with
  | (.error e, t) => (.error e, t)
  | (.ok dev, t) =>
      let r := fsx.parted env (pyStrOpt dev ++ " set " ++ toString (partition + 1) ++
        " " ++ string)
      (.ok (r.1 == 0), t ++ r.2)

/-- `Filesystem.use_entire_disk(prep_mode=None)`: boot partition
1MiB–513MiB formatted fat32, named EFI, flags boot and esp; then for
`prep_mode == 'luks2'` an unformatted partition 513MiB–100%, otherwise
an ext4 partition with bounds 1MiB–513MiB (as written in the source). -/
def Filesystem.use_entire_disk (env : Env) (fsx : Filesystem)
    (prep_mode : Option String) : Except PyError Unit × List Effect :=
  seqEff (fsx.add_partition env "primary" "1MiB" "513MiB" (some "fat32")) fun _ =>
  seqEff (fsx.set_name env 0 "EFI") fun _ =>
  seqEff (fsx.set env 0 "boot on") fun _ =>
  seqEff (fsx.set env 0 "esp on") fun _ =>
  if prep_mode = some "luks2" then
    seqEff (fsx.add_partition env "primary" "513MiB" "100%" none) fun _ => (.ok (), [])
  else
    seqEff (fsx.add_partition env "primary" "1MiB" "513MiB" (some "ext4")) fun _ => (.ok (), [])

/-! Concrete fixtures used by witnesses and counterexamples. -/

/-- A quiet environment: every command exits 0 with empty output, no
loop devices, no mapper links, identity `abspath`, mounts succeed. -/
def envDisk : Env :=
  { cmdOutput := fun _ => ""
    exitCode := fun _ => 0
    loopdevices := []
    islink := fun _ => false
    abspath := fun s => s
    mountRet := fun _ _ _ _ => 0
    errno := 0
    strerror := fun _ => "" }

/-- `envDisk` but with the mapper link `/dev/mapper/luksdev` present. -/
def envLink : Env :=
  { envDisk with islink := fun s => s == "/dev/mapper/luksdev" }

/-- An environment whose command output carries a UUID marker. -/
def envBtrfsOk : Env :=
  { envDisk with cmdOutput := fun _ => "UUID: 0f3db8a0" }

/-- An environment whose command output carries the mkfs.fat marker. -/
def envFatOk : Env :=
  { envDisk with cmdOutput := fun _ => "mkfs.fat 4.1 (2017-01-24)" }

/-- A plain disk-typed block device. -/
def bdSda : BlockDevice := { path := "/dev/sda", info := [("type", "disk")] }

/-- A crypt-typed block device with a parent kernel name. -/
def bdCrypt : BlockDevice :=
  { path := "/dev/dm-0", info := [("type", "crypt"), ("pkname", "sda2")] }

/-- A block device whose info has no `type` key. -/
def bdNoType : BlockDevice := { path := "/dev/mystery", info := [] }

/-- A loop-typed block device (no matching loop-table row in `envDisk`). -/
def bdLoop : BlockDevice := { path := "/dev/loop0", info := [("type", "loop")] }

/-- A block device of a type outside loop/disk/crypt. -/
def bdWeird : BlockDevice := { path := "/dev/sr0", info := [("type", "rom")] }

/-- A fresh partition on /dev/sda2. -/
def partSda2 : Partition := Partition.init "/dev/sda2" none (-1)

/-- A GPT session over `bdSda`. -/
def fsSda : Filesystem := { blockdevice := bdSda, mode := GPT }

/-- C3: for a BlockDevice of type `disk`, `device` returns `path`
unchanged; for type `crypt` with a parent kernel name `pk`, it returns
`/dev/<pk>`; when the `type` key is missing, it raises `DiskError`. -/
theorem device_type_cases (env : Env) (bd : BlockDevice) :
    (infoGet bd.info "type" = some "disk" →
       BlockDevice.device env bd = (.ok (some bd.path), [])) ∧
    (∀ pk, infoGet bd.info "type" = some "crypt" → infoGet bd.info "pkname" = some pk →
       BlockDevice.device env bd = (.ok (some ("/dev/" ++ pk)), [])) ∧
    (infoGet bd.info "type" = none →
       BlockDevice.device env bd =
         (.error (.diskError ("Could not locate backplane info for \"" ++ bd.path ++ "\"")), [])) := by
  refine ⟨fun h => ?_, fun pk h h2 => ?_, fun h => ?_⟩ <;>
    simp [BlockDevice.device, h]
  rw [h2]

theorem device_type_cases_witness :
    BlockDevice.device envDisk bdSda = (.ok (some "/dev/sda"), []) ∧
    BlockDevice.device envDisk bdCrypt = (.ok (some "/dev/sda2"), []) ∧
    BlockDevice.device envDisk bdNoType =
      (.error (.diskError "Could not locate backplane info for \"/dev/mystery\""), []) :=
  ⟨(device_type_cases envDisk bdSda).1 rfl,
   (device_type_cases envDisk bdCrypt).2.1 "sda2" rfl rfl,
   (device_type_cases envDisk bdNoType).2.2 rfl⟩

/-- C10: a `loop`-typed BlockDevice whose path matches no loop-table
row yields `None` from `device` (no error), and any type outside
loop/disk/crypt also yields `None` (no error). -/
theorem device_returns_none_cases (env : Env) (bd : BlockDevice) :
    (infoGet bd.info "type" = some "loop" →
       env.loopdevices.find? (fun drive => drive.name == bd.path) = none →
       BlockDevice.device env bd = (.ok none, [.cmd "losetup --json"])) ∧
    (∀ t, infoGet bd.info "type" = some t → t ≠ "loop" → t ≠ "disk" → t ≠ "crypt" →
       BlockDevice.device env bd = (.ok none, [])) := by
  refine ⟨fun h hf => ?_, fun t h h1 h2 h3 => ?_⟩ <;>
    simp [BlockDevice.device, h, *]

theorem device_returns_none_cases_witness :
    BlockDevice.device envDisk bdLoop = (.ok none, [.cmd "losetup --json"]) ∧
    BlockDevice.device envDisk bdWeird = (.ok none, []) :=
  ⟨(device_returns_none_cases envDisk bdLoop).1 rfl rfl,
   (device_returns_none_cases envDisk bdWeird).2 "rom" rfl
     (by decide) (by decide) (by decide)⟩

/-- C4: mounting a Partition with unset `filesystem` and no explicit
`fs` raises `DiskError`, issues no kernel mount call, and leaves the
partition state unchanged. -/
theorem mount_unset_filesystem_errors (env : Env) (p : Partition)
    (target options : String) (h : p.filesystem = none) :
    Partition.mount env p target none options =
      (.error (.diskError "Need to format (or define) the filesystem before mounting."),
       p, []) := by
  simp [Partition.mount, strFalsy, h]

theorem mount_unset_filesystem_errors_witness :
    Partition.mount envDisk partSda2 "/mnt" none "" =
      (.error (.diskError "Need to format (or define) the filesystem before mounting."),
       partSda2, []) :=
  mount_unset_filesystem_errors envDisk partSda2 "/mnt" "" rfl

/-- C6: the partition-table session's exit step always issues exactly
the synchronization command, and its (falsy) return value never
suppresses or replaces a pending exception. -/
theorem filesystem_exit_sync_propagates (fsx : Filesystem) (excVal : Option PyError) :
    (fsx.exitStep excVal).2 = [Effect.cmd "sync"] ∧
    ∀ e : PyError, propagatesExc (fsx.exitStep excVal).1 e = some e :=
  ⟨rfl, fun _ => rfl⟩

/-- C8: `close(mountpoint)` returns true exactly when the link
`/dev/mapper/<mountpoint>` no longer exists after the teardown
command. -/
theorem close_true_iff_link_gone (env : Env) (mountpoint : String) :
    (luks2.close env mountpoint).1 = true ↔
      env.islink ("/dev/mapper/" ++ mountpoint) = false := by
  cases h : env.islink ("/dev/mapper/" ++ mountpoint) <;>
    simp [luks2.close, h]

/-- C5: `format` is a three-way case analysis.  For `btrfs`: returns
true and sets `filesystem` exactly when the output has a UUID marker,
returns false (no exception) otherwise.  For `fat32`: returns Python
`None` when both tool-name markers are absent or a command-not-found
marker is present, true otherwise.  Any other kind raises `DiskError`. -/
theorem format_three_way_cases (env : Env) (p : Partition) (f : String) :
    (f = "btrfs" →
       (containsSub (env.cmdOutput (btrfsCmd p)) "UUID" = true →
          Partition.format env p f =
            (.ok (some true), { p with filesystem := some "btrfs" }, [.cmd (btrfsCmd p)])) ∧
       (containsSub (env.cmdOutput (btrfsCmd p)) "UUID" = false →
          Partition.format env p f = (.ok (some false), p, [.cmd (btrfsCmd p)]))) ∧
    (f = "fat32" →
       ((containsSub (env.cmdOutput (fat32Cmd p)) "mkfs.fat" = false ∧
           containsSub (env.cmdOutput (fat32Cmd p)) "mkfs.vfat" = false) ∨
           containsSub (env.cmdOutput (fat32Cmd p)) "command not found" = true →
          Partition.format env p f = (.ok none, p, [.cmd (fat32Cmd p)])) ∧
       ((containsSub (env.cmdOutput (fat32Cmd p)) "mkfs.fat" = true ∨
           containsSub (env.cmdOutput (fat32Cmd p)) "mkfs.vfat" = true) ∧
           containsSub (env.cmdOutput (fat32Cmd p)) "command not found" = false →
          Partition.format env p f = (.ok (some true), p, [.cmd (fat32Cmd p)]))) ∧
    (f ≠ "btrfs" → f ≠ "fat32" →
       Partition.format env p f =
         (.error (.diskError ("Fileformat " ++ f ++ " is not yet implemented.")), p, [])) := by
  refine ⟨fun hf => ⟨fun h => ?_, fun h => ?_⟩,
          fun hf => ⟨fun h => ?_, fun h => ?_⟩, fun h1 h2 => ?_⟩
  · subst hf; simp [Partition.format, h]
  · subst hf; simp [Partition.format, h]
  · subst hf
    rcases h with ⟨ha, hb⟩ | hc
    · simp [Partition.format, ha, hb]
    · simp [Partition.format, hc]
  · subst hf
    obtain ⟨hab, hc⟩ := h
    rcases hab with ha | hb
    · simp [Partition.format, ha, hc]
    · simp [Partition.format, hb, hc]
  · simp [Partition.format, h1, h2]

theorem format_three_way_cases_witness :
    Partition.format envBtrfsOk partSda2 "btrfs" =
      (.ok (some true), { partSda2 with filesystem := some "btrfs" },
       [.cmd (btrfsCmd partSda2)]) ∧
    Partition.format envFatOk partSda2 "fat32" =
      (.ok (some true), partSda2, [.cmd (fat32Cmd partSda2)]) ∧
    Partition.format envDisk partSda2 "ext4" =
      (.error (.diskError "Fileformat ext4 is not yet implemented."), partSda2, []) :=
  ⟨((format_three_way_cases envBtrfsOk partSda2 "btrfs").1 rfl).1 (by decide),
   ((format_three_way_cases envFatOk partSda2 "fat32").2.1 rfl).2
     ⟨Or.inl (by decide), by decide⟩,
   (format_three_way_cases envDisk partSda2 "ext4").2.2 (by decide) (by decide)⟩

/-- Frame helper: every `format` call with a kind other than `btrfs`
leaves the partition state untouched. -/
theorem format_state_frame (env : Env) (p : Partition) (g : String) (hg : g ≠ "btrfs") :
    (Partition.format env p g).2.1 = p := by
  by_cases hf : g = "fat32"
  · subst hf
    by_cases hc : (!containsSub (env.cmdOutput (fat32Cmd p)) "mkfs.fat" &&
        !containsSub (env.cmdOutput (fat32Cmd p)) "mkfs.vfat" ||
        containsSub (env.cmdOutput (fat32Cmd p)) "command not found") = true
    · simp [Partition.format, hc]
    · simp [Partition.format, hc]
  · simp [Partition.format, hg, hf]

/-- C9: a successful FAT32 format (return value true) leaves the
partition's `filesystem` attribute unset, so a subsequent `mount`
without an explicit `fs` still raises `DiskError` (issuing no kernel
call and leaving the state unchanged); only the `btrfs` kind can ever
change the `filesystem` attribute. -/
theorem fat32_format_frame (env env2 : Env) (p q : Partition) (t : List Effect)
    (target options : String)
    (hfs : p.filesystem = none)
    (h : Partition.format env p "fat32" = (.ok (some true), q, t)) :
    q.filesystem = none ∧
    Partition.mount env2 q target none options =
      (.error (.diskError "Need to format (or define) the filesystem before mounting."),
       q, []) ∧
    (∀ g r q2 t2, Partition.format env p g = (.ok r, q2, t2) →
       q2.filesystem ≠ none → g = "btrfs") := by
  have hq : q = p := by
    have h2 := congrArg (fun z => z.2.1) h
    simp only [format_state_frame env p "fat32" (by decide)] at h2
    exact h2.symm
  have hqf : q.filesystem = none := by rw [hq]; exact hfs
  refine ⟨hqf, by simp [Partition.mount, strFalsy, hqf], ?_⟩
  intro g r q2 t2 hfmt hne
  by_cases hb : g = "btrfs"
  · exact hb
  · exfalso
    apply hne
    have h2 := congrArg (fun z => z.2.1) hfmt
    simp only [format_state_frame env p g hb] at h2
    rw [← h2]
    exact hfs

theorem fat32_format_frame_witness :
    partSda2.filesystem = none ∧
    Partition.mount envDisk partSda2 "/mnt2" none "" =
      (.error (.diskError "Need to format (or define) the filesystem before mounting."),
       partSda2, []) ∧
    (∀ g r q2 t2, Partition.format envFatOk partSda2 g = (.ok r, q2, t2) →
       q2.filesystem ≠ none → g = "btrfs") :=
  fat32_format_frame envFatOk envDisk partSda2 partSda2
    [Effect.cmd (fat32Cmd partSda2)] "/mnt2" "" rfl rfl

/-- C7: after the cryptsetup-open command, `unlock` returns a new
Partition whose path is exactly `/dev/mapper/<mountpoint>` when that
link exists, and returns nothing (no Partition, no exception) when it
does not. -/
theorem unlock_mapper_link_cases (env : Env) (p : Partition)
    (mountpoint key_file : String) :
    (env.islink ("/dev/mapper/" ++ mountpoint) = true →
       ∃ q, (luks2.unlock env p mountpoint key_file).1 = some q ∧
         q.path = "/dev/mapper/" ++ mountpoint) ∧
    (env.islink ("/dev/mapper/" ++ mountpoint) = false →
       (luks2.unlock env p mountpoint key_file).1 = none) := by
  constructor
  · intro h
    exact ⟨Partition.init ("/dev/mapper/" ++ mountpoint) none (-1),
      by simp [luks2.unlock, h], rfl⟩
  · intro h
    simp [luks2.unlock, h]

theorem unlock_mapper_link_cases_witness :
    (∃ q, (luks2.unlock envLink partSda2 "luksdev" "mykey").1 = some q ∧
       q.path = "/dev/mapper/luksdev") ∧
    (luks2.unlock envDisk partSda2 "luksdev" "mykey").1 = none :=
  ⟨(unlock_mapper_link_cases envLink partSda2 "luksdev" "mykey").1 rfl,
   (unlock_mapper_link_cases envDisk partSda2 "luksdev" "mykey").2 rfl⟩

/-- C1 counterexample: called with the mountpoint `luks/dev`, which
contains the separator `/`, `unlock` does not reject the name — it
issues the cryptsetup-open command with the unmodified mountpoint
string and raises nothing. -/
theorem unlock_separator_counterexample :
    containsSub "luks/dev" "/" = true ∧
    luks2.unlock envDisk partSda2 "luks/dev" "keyfile" =
      (none, [Effect.cmd
        "/usr/bin/cryptsetup open /dev/sda2 luks/dev --key-file keyfile --type luks2"]) :=
  ⟨rfl, rfl⟩

/-- C1 (amended): for a mountpoint containing the separator `/`, the
basename computed on the source's separator-check line is discarded, so
the unlock command is always issued with the unmodified mountpoint
string — no rejection takes place. -/
theorem unlock_separator_passthrough (env : Env) (p : Partition)
    (mountpoint key_file : String) (h : containsSub mountpoint "/" = true) :
    (luks2.unlock env p mountpoint key_file).2 =
      [Effect.cmd ("/usr/bin/cryptsetup open " ++ p.path ++ " " ++ mountpoint ++
        " --key-file " ++ env.abspath key_file ++ " --type luks2")] := by
  by_cases hl : env.islink ("/dev/mapper/" ++ mountpoint)
  · simp [luks2.unlock, hl]
  · simp [luks2.unlock, hl]

theorem unlock_separator_passthrough_witness :
    (luks2.unlock envDisk partSda2 "a/b" "mykey2").2 =
      [Effect.cmd "/usr/bin/cryptsetup open /dev/sda2 a/b --key-file mykey2 --type luks2"] :=
  unlock_separator_passthrough envDisk partSda2 "a/b" "mykey2" (by decide)

/-- C2: on a disk-typed block device, `use_entire_disk('luks2')` issues
the 1MiB–513MiB fat32 boot partition (named EFI, flags boot and esp)
followed by a single unformatted 513MiB–100% partition, whereas
`use_entire_disk(None)` follows the boot partition with an ext4
partition whose bounds are again 1MiB–513MiB — identical to the boot
partition's, not after it. -/
theorem use_entire_disk_layout_eval :
    Filesystem.use_entire_disk envDisk fsSda (some "luks2") =
      (.ok (),
       [.cmd "/usr/bin/parted -s /dev/sda mkpart primary fat32 1MiB 513MiB",
        .cmd "/usr/bin/parted -s /dev/sda name 1 \"EFI\"",
        .cmd "/usr/bin/parted -s /dev/sda set 1 boot on",
        .cmd "/usr/bin/parted -s /dev/sda set 1 esp on",
        .cmd "/usr/bin/parted -s /dev/sda mkpart primary 513MiB 100%"]) ∧
    Filesystem.use_entire_disk envDisk fsSda none =
      (.ok (),
       [.cmd "/usr/bin/parted -s /dev/sda mkpart primary fat32 1MiB 513MiB",
        .cmd "/usr/bin/parted -s /dev/sda name 1 \"EFI\"",
        .cmd "/usr/bin/parted -s /dev/sda set 1 boot on",
        .cmd "/usr/bin/parted -s /dev/sda set 1 esp on",
        .cmd "/usr/bin/parted -s /dev/sda mkpart primary ext4 1MiB 513MiB"]) :=
  ⟨rfl, rfl⟩
